import Mathlib

/-!
Shallow embedding of `src/backend/get_transcript.py` (speakflow).

The script fetches a YouTube transcript through the external library
`YouTubeTranscriptApi` and prints each transcript entry as one JSON object
per line.  The external provider is modelled as a function from a video
identifier and a language-preference list to either a transcript (`.ok`)
or a raised exception, carrying its message (`.error`).  Python exceptions
are modelled by their `str` message.  The embedding records the ordered
list of provider calls an execution performs, so that claims about which
retrieval attempts happen, and in which order, are statable.
-/

namespace Speakflow

/-- One JSON-serializable value appearing in a transcript entry.  The real
provider supplies strings (the `text` field) and numbers (`start` and
`duration`).  Numeric values are modelled as integers: no claim depends on
float formatting, and Python serializes numbers to ASCII digit strings
either way. -/
inductive JVal where
  | jstr : String → JVal
  | jnum : Int → JVal
deriving DecidableEq

/-- A transcript entry as the provider returns it: a Python dict, i.e. an
ordered association list of field names to values (insertion order is
preserved by Python dicts and by `json.dumps`). -/
abbrev Entry := List (String × JVal)

/-- A transcript: the provider-ordered list of entries. -/
abbrev Transcript := List Entry

/-- One call made to the external provider: the video identifier and the
language-preference list passed to `YouTubeTranscriptApi.get_transcript`. -/
structure ProviderCall where
  video_id : String
  languages : List String
deriving DecidableEq

/-- The external transcript provider: given a video identifier and a
language-preference list it either returns a transcript or raises an
exception with the given message. -/
abbrev Provider := String → List String → Except String Transcript

/-- The decimal digit character for `d` (`d` taken mod 10, as Python's
integer-to-string conversion produces). -/
def digitChar (d : Nat) : Char :=
  match d with
  | 0 => '0' | 1 => '1' | 2 => '2' | 3 => '3' | 4 => '4'
  | 5 => '5' | 6 => '6' | 7 => '7' | 8 => '8' | _ => '9'

/-- The lowercase hexadecimal digit character for `d`, as used by
`json.dumps` in `\uXXXX` escapes. -/
def hexChar (d : Nat) : Char :=
  match d with
  | 0 => '0' | 1 => '1' | 2 => '2' | 3 => '3' | 4 => '4'
  | 5 => '5' | 6 => '6' | 7 => '7' | 8 => '8' | 9 => '9'
  | 10 => 'a' | 11 => 'b' | 12 => 'c' | 13 => 'd' | 14 => 'e' | _ => 'f'

/-- Decimal digits of `n`, most significant first, prepended to `acc`.
`fuel` bounds the recursion; any `fuel > n` is enough. -/
def natDigitsAux : Nat → Nat → List Char → List Char
  | 0, _, acc => acc
  | fuel + 1, n, acc =>
    if n < 10 then digitChar n :: acc
    else natDigitsAux fuel (n / 10) (digitChar (n % 10) :: acc)

/-- Python `str` of a natural number. -/
def natToString (n : Nat) : String := String.mk (natDigitsAux (n + 1) n [])

/-- Python `str` of an integer. -/
def intToString (i : Int) : String :=
  if i < 0 then "-" ++ natToString i.natAbs else natToString i.natAbs

/-- The four lowercase hex digits of `n % 65536`, as in a `\uXXXX` escape. -/
def hex4 (n : Nat) : String :=
  String.mk [hexChar (n / 4096 % 16), hexChar (n / 256 % 16),
             hexChar (n / 16 % 16), hexChar (n % 16)]

/-- How `json.dumps` (with its default `ensure_ascii=True`) renders one
character of a JSON string: backslash and double quote get two-character
escapes, the five named control characters get their short escapes, other
characters between `0x20` and `0x7e` pass through, and everything else
becomes `\uXXXX` (a surrogate pair for code points above `0xffff`). -/
def escapeChar (c : Char) : List Char :=
  if c = '"' then ['\\', '"']
  else if c = '\\' then ['\\', '\\']
  else if c.toNat = 8 then ['\\', 'b']
  else if c.toNat = 9 then ['\\', 't']
  else if c.toNat = 10 then ['\\', 'n']
  else if c.toNat = 12 then ['\\', 'f']
  else if c.toNat = 13 then ['\\', 'r']
  else if 32 ≤ c.toNat ∧ c.toNat ≤ 126 then [c]
  else if c.toNat ≤ 65535 then '\\' :: 'u' :: (hex4 c.toNat).data
  else
    ('\\' :: 'u' :: (hex4 (55296 + (c.toNat - 65536) / 1024)).data) ++
    ('\\' :: 'u' :: (hex4 (56320 + (c.toNat - 65536) % 1024)).data)

/-- Escape every character of `s` as `json.dumps` does. -/
def escapeString (s : String) : String :=
  String.mk (s.data.foldr (fun c acc => escapeChar c ++ acc) [])

/-- A JSON string literal: the escaped content between double quotes. -/
def jstring (s : String) : String := "\"" ++ escapeString s ++ "\""

/-- Serialize one value as `json.dumps` does. -/
def jvalToString : JVal → String
  | .jstr s => jstring s
  | .jnum i => intToString i

/-- Join serialized object items with the `", "` item separator that
`json.dumps` uses by default. -/
def joinComma : List String → String
  | [] => ""
  | [s] => s
  | s :: rest => s ++ ", " ++ joinComma rest

/-- Model of `json.dumps(entry)` for a provider-supplied dict: the items in
insertion order, each rendered as `"key": value`, joined by `", "` and
wrapped in braces. -/
def json_dumps (entry : Entry) : String :=
  "\x7b" ++
    joinComma (entry.map (fun kv => jstring kv.1 ++ ": " ++ jvalToString kv.2)) ++
  "\x7d"

/-- Embedding of the script's `get_transcript(video_id)`.  It first calls
the provider with `languages=['en']`; on success that transcript is
returned.  If that raises `e`, it calls the provider with
`languages=['en-US', 'en-GB']`; on success that transcript is returned,
and if that second call raises too, the original exception `e` is
re-raised.  The first component is the ordered list of provider calls the
execution performed; the second is the Python-level outcome. -/
def get_transcript (api : Provider) (video_id : String) :
    List ProviderCall × Except String Transcript :=
  match api video_id ["en"] with
  | .ok transcript => ([⟨video_id, ["en"]⟩], .ok transcript)
  | .error e =>
    match api video_id ["en-US", "en-GB"] with
    | .ok transcript =>
        ([⟨video_id, ["en"]⟩, ⟨video_id, ["en-US", "en-GB"]⟩], .ok transcript)
    | .error _e2 =>
        ([⟨video_id, ["en"]⟩, ⟨video_id, ["en-US", "en-GB"]⟩], .error e)

/-- The usage message the script prints to stderr on an argument-count
violation. -/
def usageMessage : String := "Usage: python get_transcript.py <video_id>"

/-- Observable outcome of one run of the script: the lines printed to
stdout, the lines printed to stderr, the process exit status, and the
ordered list of provider calls performed. -/
structure RunResult where
  stdout : List String
  stderr : List String
  exitCode : Nat
  calls : List ProviderCall
deriving DecidableEq

/-- Embedding of the script's `__main__` block.  `argv` is `sys.argv`,
program name included.  When `len(sys.argv) != 2` the script prints the
usage message to stderr and exits 1 without contacting the provider.
Otherwise it runs `get_transcript` on `sys.argv[1]`; on success it prints
`json.dumps(entry)` for each entry in order and exits 0, and on an
uncaught exception it prints `Error: ` plus the message to stderr and
exits 1. -/
def main (api : Provider) (argv : List String) : RunResult :=
  if argv.length ≠ 2 then
    ⟨[], [usageMessage], 1, []⟩
  else
    match get_transcript api (argv.getD 1 "") with
    | (cs, .ok transcript) =>
        ⟨transcript.map (fun entry => json_dumps entry), [], 0, cs⟩
    | (cs, .error e) =>
        ⟨[], ["Error: " ++ e], 1, cs⟩

/-- A provider for which both retrieval attempts fail, with distinct
messages. -/
def failingApi : Provider := fun _ langs =>
  .error (if langs = ["en"] then "primary failure" else "fallback failure")

/-- A sample transcript with the provider's field names and playback
order. -/
def sampleTranscript : Transcript :=
  [[("text", JVal.jstr "hello"), ("start", JVal.jnum 0), ("duration", JVal.jnum 2)],
   [("text", JVal.jstr "world"), ("start", JVal.jnum 2), ("duration", JVal.jnum 3)]]

/-- A provider whose primary English attempt succeeds. -/
def okApi : Provider := fun _ _ => .ok sampleTranscript

/-- A provider that agrees with `okApi` on every call the script can make
but differs elsewhere. -/
def okApiB : Provider := fun _ langs =>
  if langs = [] then .error "unreachable" else .ok sampleTranscript

/-- A provider with no plain `en` transcript that succeeds on the regional
fallback attempt. -/
def fallbackApi : Provider := fun _ langs =>
  if langs = ["en"] then .error "no en transcript" else .ok sampleTranscript

/-- A provider that returns an empty transcript. -/
def emptyApi : Provider := fun _ _ => .ok []

/-- A provider whose transcript text contains a non-ASCII character. -/
def unicodeApi : Provider := fun _ _ =>
  .ok [[("text", JVal.jstr "héllo"), ("start", JVal.jnum 0), ("duration", JVal.jnum 1)]]

/-- When the primary attempt succeeds, `get_transcript` makes exactly that
one provider call and returns its transcript. -/
theorem get_transcript_eq_of_primary (api : Provider) (video_id : String)
    (ts : Transcript) (h : api video_id ["en"] = .ok ts) :
    get_transcript api video_id = ([⟨video_id, ["en"]⟩], .ok ts) := by
  unfold get_transcript
  rw [h]

/-- When the primary attempt fails and the fallback succeeds,
`get_transcript` makes both calls and returns the fallback transcript. -/
theorem get_transcript_eq_of_fallback (api : Provider) (video_id : String)
    (e : String) (ts : Transcript)
    (h1 : api video_id ["en"] = .error e)
    (h2 : api video_id ["en-US", "en-GB"] = .ok ts) :
    get_transcript api video_id =
      ([⟨video_id, ["en"]⟩, ⟨video_id, ["en-US", "en-GB"]⟩], .ok ts) := by
  unfold get_transcript
  rw [h1, h2]

/-- When both attempts fail, `get_transcript` makes both calls and the
outcome is the primary attempt's error. -/
theorem get_transcript_eq_of_both_fail (api : Provider) (video_id : String)
    (e e2 : String)
    (h1 : api video_id ["en"] = .error e)
    (h2 : api video_id ["en-US", "en-GB"] = .error e2) :
    get_transcript api video_id =
      ([⟨video_id, ["en"]⟩, ⟨video_id, ["en-US", "en-GB"]⟩], .error e) := by
  unfold get_transcript
  rw [h1, h2]

/-- With a wrong argument count, `main` prints the usage message, exits 1
and makes no provider call. -/
theorem main_eq_of_bad_argc (api : Provider) (argv : List String)
    (h : argv.length ≠ 2) :
    main api argv = ⟨[], [usageMessage], 1, []⟩ := by
  unfold main
  rw [if_pos h]

/-- With exactly two `argv` entries, `main` dispatches on the outcome of
`get_transcript` applied to the second one. -/
theorem main_eq_of_ok (api : Provider) (prog video_id : String)
    (cs : List ProviderCall) (ts : Transcript)
    (h : get_transcript api video_id = (cs, .ok ts)) :
    main api [prog, video_id] = ⟨ts.map json_dumps, [], 0, cs⟩ := by
  unfold main
  rw [if_neg (by simp)]
  rw [show List.getD [prog, video_id] 1 "" = video_id from rfl, h]

/-- With exactly two `argv` entries and a failing retrieval, `main` prints
the error message to stderr and exits 1. -/
theorem main_eq_of_error (api : Provider) (prog video_id : String)
    (cs : List ProviderCall) (e : String)
    (h : get_transcript api video_id = (cs, .error e)) :
    main api [prog, video_id] = ⟨[], ["Error: " ++ e], 1, cs⟩ := by
  unfold main
  rw [if_neg (by simp)]
  rw [show List.getD [prog, video_id] 1 "" = video_id from rfl, h]

/-- A pair whose second component is known is the pair of its first
component with that value. -/
theorem pair_eq_of_snd {α β : Type} (p : α × β) (b : β) (h : p.2 = b) :
    p = (p.1, b) := by
  rw [← h]

/-- Claim C1: for every video identifier, `get_transcript` first attempts
retrieval with language preference `en`; if that attempt fails for any
reason, it attempts retrieval with languages `en-US` then `en-GB`; and if
the second attempt also fails, the error propagated to the caller is the
first attempt's error, not the second's. -/
theorem c1_first_error_propagated (api : Provider) (video_id : String) :
    (get_transcript api video_id).1.head? = some ⟨video_id, ["en"]⟩ ∧
    ∀ e, api video_id ["en"] = .error e →
      (get_transcript api video_id).1 =
        [⟨video_id, ["en"]⟩, ⟨video_id, ["en-US", "en-GB"]⟩] ∧
      ∀ e2, api video_id ["en-US", "en-GB"] = .error e2 →
        (get_transcript api video_id).2 = .error e ∧
        (e ≠ e2 → (get_transcript api video_id).2 ≠ .error e2) := by
  constructor
  · unfold get_transcript
    cases h1 : api video_id ["en"] with
    | ok t => rfl
    | error e => cases h2 : api video_id ["en-US", "en-GB"] <;> rfl
  · intro e h1
    cases h2 : api video_id ["en-US", "en-GB"] with
    | ok t =>
      rw [get_transcript_eq_of_fallback api video_id e t h1 h2]
      exact ⟨rfl, fun e2 he2 => Except.noConfusion he2⟩
    | error e2 =>
      rw [get_transcript_eq_of_both_fail api video_id e e2 h1 h2]
      exact ⟨rfl, fun e2x _ => ⟨rfl, fun hne hcontra => hne (Except.error.inj hcontra)⟩⟩

/-- Witness for C1: with a provider failing both attempts with distinct
messages, the propagated error is the primary one, not the fallback one. -/
theorem c1_first_error_propagated_witness :
    (get_transcript failingApi "abc").2 = .error "primary failure" ∧
    (get_transcript failingApi "abc").2 ≠ .error "fallback failure" := by
  have h := (c1_first_error_propagated failingApi "abc").2 "primary failure" (by rfl)
  have h2 := h.2 "fallback failure" (by rfl)
  exact ⟨h2.1, h2.2 (by decide)⟩

/-- Claim C2: with zero arguments or with two or more arguments after the
program name, the script prints the usage message to stderr, exits with
status 1, produces no stdout, and contacts the provider only when exactly
one argument is given. -/
theorem c2_argc_usage (api : Provider) (argv : List String)
    (h : argv.length = 1 ∨ 3 ≤ argv.length) :
    (main api argv).stderr = [usageMessage] ∧
    (main api argv).exitCode = 1 ∧
    (main api argv).stdout = [] ∧
    (main api argv).calls = [] ∧
    ∀ argv2 : List String, (main api argv2).calls ≠ [] → argv2.length = 2 := by
  have hne : argv.length ≠ 2 := by omega
  rw [main_eq_of_bad_argc api argv hne]
  refine ⟨rfl, rfl, rfl, rfl, fun argv2 hc => ?_⟩
  by_contra hl
  exact hc (by rw [main_eq_of_bad_argc api argv2 hl])

/-- Witness for C2: a run with only the program name in `argv`. -/
theorem c2_argc_usage_witness :
    (main failingApi ["get_transcript.py"]).stderr = [usageMessage] ∧
    (main failingApi ["get_transcript.py"]).exitCode = 1 ∧
    (main failingApi ["get_transcript.py"]).stdout = [] := by
  have h := c2_argc_usage failingApi ["get_transcript.py"] (Or.inl rfl)
  exact ⟨h.1, h.2.1, h.2.2.1⟩

/-- Claim C3: on a successful retrieval, stdout is exactly one JSON object
per transcript entry, one entry per line, in provider order, each entry
serialized with its own field names; stderr is empty and the exit status
is 0. -/
theorem c3_success_prints_each_entry (api : Provider) (prog video_id : String)
    (ts : Transcript) (h : (get_transcript api video_id).2 = .ok ts) :
    (main api [prog, video_id]).stdout = ts.map json_dumps ∧
    (main api [prog, video_id]).stdout.length = ts.length ∧
    (main api [prog, video_id]).stderr = [] ∧
    (main api [prog, video_id]).exitCode = 0 := by
  rw [main_eq_of_ok api prog video_id _ ts (pair_eq_of_snd _ _ h)]
  exact ⟨rfl, by simp, rfl, rfl⟩

/-- Witness for C3: a provider whose primary attempt returns the sample
transcript. -/
theorem c3_success_prints_each_entry_witness :
    (main okApi ["get_transcript.py", "abc"]).stdout = sampleTranscript.map json_dumps ∧
    (main okApi ["get_transcript.py", "abc"]).exitCode = 0 := by
  have h := c3_success_prints_each_entry okApi "get_transcript.py" "abc" sampleTranscript rfl
  exact ⟨h.1, h.2.2.2⟩

/-- Claim C4: when both retrieval attempts raise, the script prints
`Error: ` followed by the propagated error message to stderr, exits with
status 1, and writes nothing to stdout. -/
theorem c4_failure_reports_error (api : Provider) (prog video_id : String)
    (e e2 : String)
    (h1 : api video_id ["en"] = .error e)
    (h2 : api video_id ["en-US", "en-GB"] = .error e2) :
    (main api [prog, video_id]).stderr = ["Error: " ++ e] ∧
    (main api [prog, video_id]).exitCode = 1 ∧
    (main api [prog, video_id]).stdout = [] := by
  rw [main_eq_of_error api prog video_id _ e
        (get_transcript_eq_of_both_fail api video_id e e2 h1 h2)]
  exact ⟨rfl, rfl, rfl⟩

/-- Witness for C4: both attempts of `failingApi` fail. -/
theorem c4_failure_reports_error_witness :
    (main failingApi ["get_transcript.py", "abc"]).stderr = ["Error: " ++ "primary failure"] ∧
    (main failingApi ["get_transcript.py", "abc"]).exitCode = 1 ∧
    (main failingApi ["get_transcript.py", "abc"]).stdout = [] :=
  c4_failure_reports_error failingApi "get_transcript.py" "abc"
    "primary failure" "fallback failure" (by rfl) (by rfl)

/-- Claim C5: the script's only exit statuses are 0 and 1, for every
provider behaviour and every argument vector. -/
theorem c5_exit_code_zero_or_one (api : Provider) (argv : List String) :
    (main api argv).exitCode = 0 ∨ (main api argv).exitCode = 1 := by
  unfold main
  split
  · exact Or.inr rfl
  · cases hg : get_transcript api (argv.getD 1 "") with
    | mk cs r =>
      cases r with
      | ok t => exact Or.inl rfl
      | error e => exact Or.inr rfl

/-- Helper for C8: `get_transcript` depends on the provider only through
the two calls the script can make. -/
theorem get_transcript_api_congr (api api2 : Provider) (video_id : String)
    (h1 : api video_id ["en"] = api2 video_id ["en"])
    (h2 : api video_id ["en-US", "en-GB"] = api2 video_id ["en-US", "en-GB"]) :
    get_transcript api video_id = get_transcript api2 video_id := by
  unfold get_transcript
  rw [h1, h2]

/-- Claim C6: when only the regional fallback has a transcript, the run
succeeds through the fallback path and its stdout, stderr and exit status
coincide with those of a primary-path run returning the same entries. -/
theorem c6_fallback_same_shape (api api2 : Provider) (prog video_id : String)
    (e : String) (ts : Transcript)
    (h1 : api video_id ["en"] = .error e)
    (h2 : api video_id ["en-US", "en-GB"] = .ok ts)
    (h3 : api2 video_id ["en"] = .ok ts) :
    (main api [prog, video_id]).exitCode = 0 ∧
    (main api [prog, video_id]).stdout = ts.map json_dumps ∧
    (main api [prog, video_id]).stdout = (main api2 [prog, video_id]).stdout ∧
    (main api [prog, video_id]).exitCode = (main api2 [prog, video_id]).exitCode ∧
    (main api [prog, video_id]).stderr = (main api2 [prog, video_id]).stderr := by
  rw [main_eq_of_ok api prog video_id _ ts
        (get_transcript_eq_of_fallback api video_id e ts h1 h2),
      main_eq_of_ok api2 prog video_id _ ts
        (get_transcript_eq_of_primary api2 video_id ts h3)]
  exact ⟨rfl, rfl, rfl, rfl, rfl⟩

/-- Witness for C6: `fallbackApi` has no plain `en` transcript but
succeeds on the regional attempt, matching `okApi`'s output. -/
theorem c6_fallback_same_shape_witness :
    (main fallbackApi ["get_transcript.py", "abc"]).exitCode = 0 ∧
    (main fallbackApi ["get_transcript.py", "abc"]).stdout =
      (main okApi ["get_transcript.py", "abc"]).stdout := by
  have h := c6_fallback_same_shape fallbackApi okApi "get_transcript.py" "abc"
    "no en transcript" sampleTranscript (by rfl) (by rfl) (by rfl)
  exact ⟨h.1, h.2.2.1⟩

/-- Claim C7: the script leaves the provider's entries unchanged: stdout
has exactly one line per entry and the line at every index is the
serialization of the entry at that same index, so nothing is mutated,
reordered, dropped or retained. -/
theorem c7_entries_unchanged (api : Provider) (prog video_id : String)
    (ts : Transcript) (h : (get_transcript api video_id).2 = .ok ts) :
    (main api [prog, video_id]).stdout.length = ts.length ∧
    ∀ i : Nat, (main api [prog, video_id]).stdout[i]? = ts[i]?.map json_dumps := by
  rw [main_eq_of_ok api prog video_id _ ts (pair_eq_of_snd _ _ h)]
  refine ⟨by simp, fun i => ?_⟩
  simp [List.getElem?_map]

/-- Witness for C7: index-wise agreement on the sample transcript. -/
theorem c7_entries_unchanged_witness :
    (main okApi ["get_transcript.py", "abc"]).stdout.length = sampleTranscript.length ∧
    (main okApi ["get_transcript.py", "abc"]).stdout[0]? =
      sampleTranscript[0]?.map json_dumps := by
  have h := c7_entries_unchanged okApi "get_transcript.py" "abc" sampleTranscript rfl
  exact ⟨h.1, h.2 0⟩

/-- Claim C8: determinism in the remote transcript: two providers that
answer the script's two possible calls identically produce identical run
results, in particular byte-identical stdout. -/
theorem c8_deterministic (api api2 : Provider) (prog video_id : String)
    (h1 : api video_id ["en"] = api2 video_id ["en"])
    (h2 : api video_id ["en-US", "en-GB"] = api2 video_id ["en-US", "en-GB"]) :
    main api [prog, video_id] = main api2 [prog, video_id] := by
  unfold main
  rw [show List.getD [prog, video_id] 1 "" = video_id from rfl]
  rw [get_transcript_api_congr api api2 video_id h1 h2]

/-- Witness for C8: `okApi` and `okApiB` agree on the script's calls, so
the runs coincide. -/
theorem c8_deterministic_witness :
    main okApi ["get_transcript.py", "abc"] = main okApiB ["get_transcript.py", "abc"] :=
  c8_deterministic okApi okApiB "get_transcript.py" "abc" (by rfl) (by rfl)

/-- Claim C9: when the provider returns an empty transcript, the script
prints nothing to stdout, nothing to stderr, and exits with status 0. -/
theorem c9_empty_transcript (api : Provider) (prog video_id : String)
    (h : (get_transcript api video_id).2 = .ok []) :
    (main api [prog, video_id]).stdout = [] ∧
    (main api [prog, video_id]).stderr = [] ∧
    (main api [prog, video_id]).exitCode = 0 := by
  rw [main_eq_of_ok api prog video_id _ [] (pair_eq_of_snd _ _ h)]
  exact ⟨rfl, rfl, rfl⟩

/-- Witness for C9: a provider returning the empty transcript. -/
theorem c9_empty_transcript_witness :
    (main emptyApi ["get_transcript.py", "abc"]).stdout = [] ∧
    (main emptyApi ["get_transcript.py", "abc"]).exitCode = 0 := by
  have h := c9_empty_transcript emptyApi "get_transcript.py" "abc" rfl
  exact ⟨h.1, h.2.2⟩

/-- Decimal digit characters are ASCII. -/
theorem digitChar_ascii (d : Nat) : (digitChar d).toNat < 128 := by
  unfold digitChar
  split <;> decide

/-- Hexadecimal digit characters are ASCII. -/
theorem hexChar_ascii (d : Nat) : (hexChar d).toNat < 128 := by
  unfold hexChar
  split <;> decide

/-- The digit accumulator only ever adds ASCII characters. -/
theorem natDigitsAux_ascii (fuel : Nat) : ∀ (n : Nat) (acc : List Char),
    (∀ c ∈ acc, c.toNat < 128) → ∀ c ∈ natDigitsAux fuel n acc, c.toNat < 128 := by
  induction fuel with
  | zero => intro n acc hacc c hc; exact hacc c hc
  | succ fuel ih =>
    intro n acc hacc c hc
    unfold natDigitsAux at hc
    split at hc
    · rcases List.mem_cons.mp hc with rfl | hmem
      · exact digitChar_ascii n
      · exact hacc c hmem
    · refine ih (n / 10) (digitChar (n % 10) :: acc) ?_ c hc
      intro x hx
      rcases List.mem_cons.mp hx with rfl | hmem
      · exact digitChar_ascii (n % 10)
      · exact hacc x hmem

/-- Python's rendering of a natural number is ASCII. -/
theorem natToString_ascii (n : Nat) : ∀ c ∈ (natToString n).data, c.toNat < 128 :=
  fun c hc => natDigitsAux_ascii (n + 1) n [] (fun x hx => absurd hx (List.not_mem_nil x)) c hc

/-- Python's rendering of an integer is ASCII. -/
theorem intToString_ascii (i : Int) : ∀ c ∈ (intToString i).data, c.toNat < 128 := by
  intro c hc
  unfold intToString at hc
  split at hc
  · rw [String.data_append] at hc
    rcases List.mem_append.mp hc with h | h
    · have hm : ("-" : String).data = ['-'] := rfl
      rw [hm, List.mem_singleton] at h
      subst h
      decide
    · exact natToString_ascii _ c h
  · exact natToString_ascii _ c hc

/-- Every character of a four-digit hex rendering is ASCII. -/
theorem hex4_ascii (n : Nat) : ∀ c ∈ (hex4 n).data, c.toNat < 128 := by
  intro c hc
  have hc2 : c ∈ [hexChar (n / 4096 % 16), hexChar (n / 256 % 16),
                  hexChar (n / 16 % 16), hexChar (n % 16)] := hc
  simp only [List.mem_cons, List.not_mem_nil, or_false] at hc2
  rcases hc2 with rfl | rfl | rfl | rfl <;> exact hexChar_ascii _

/-- Every character of a `\uXXXX` escape is ASCII. -/
theorem uEscape_ascii (m : Nat) : ∀ x ∈ '\\' :: 'u' :: (hex4 m).data, x.toNat < 128 := by
  intro x hx
  rcases List.mem_cons.mp hx with rfl | hx
  · decide
  rcases List.mem_cons.mp hx with rfl | hx
  · decide
  exact hex4_ascii m x hx

/-- Whatever `json.dumps` emits for one character is ASCII. -/
theorem escapeChar_ascii (c : Char) : ∀ x ∈ escapeChar c, x.toNat < 128 := by
  intro x hx
  unfold escapeChar at hx
  split at hx
  · simp only [List.mem_cons, List.not_mem_nil, or_false] at hx
    rcases hx with rfl | rfl <;> decide
  split at hx
  · simp only [List.mem_cons, List.not_mem_nil, or_false] at hx
    rcases hx with rfl | rfl <;> decide
  split at hx
  · simp only [List.mem_cons, List.not_mem_nil, or_false] at hx
    rcases hx with rfl | rfl <;> decide
  split at hx
  · simp only [List.mem_cons, List.not_mem_nil, or_false] at hx
    rcases hx with rfl | rfl <;> decide
  split at hx
  · simp only [List.mem_cons, List.not_mem_nil, or_false] at hx
    rcases hx with rfl | rfl <;> decide
  split at hx
  · simp only [List.mem_cons, List.not_mem_nil, or_false] at hx
    rcases hx with rfl | rfl <;> decide
  split at hx
  · simp only [List.mem_cons, List.not_mem_nil, or_false] at hx
    rcases hx with rfl | rfl <;> decide
  split at hx
  · rw [List.mem_singleton] at hx
    subst hx
    rename_i hrange
    omega
  split at hx
  · exact uEscape_ascii _ x hx
  · rcases List.mem_append.mp hx with hx | hx <;> exact uEscape_ascii _ x hx

/-- Folding the character escaper over a list yields only ASCII. -/
theorem escapeFold_ascii (l : List Char) :
    ∀ c ∈ l.foldr (fun c acc => escapeChar c ++ acc) [], c.toNat < 128 := by
  induction l with
  | nil => intro c hc; cases hc
  | cons a l ih =>
    intro c hc
    rw [List.foldr_cons, List.mem_append] at hc
    rcases hc with hc | hc
    · exact escapeChar_ascii a c hc
    · exact ih c hc

/-- The escaped form of any string is ASCII. -/
theorem escapeString_ascii (s : String) : ∀ c ∈ (escapeString s).data, c.toNat < 128 :=
  fun c hc => escapeFold_ascii s.data c hc

/-- A JSON string literal is ASCII. -/
theorem jstring_ascii (s : String) : ∀ c ∈ (jstring s).data, c.toNat < 128 := by
  intro c hc
  unfold jstring at hc
  rw [String.data_append, String.data_append] at hc
  have hq : ("\"" : String).data = ['"'] := rfl
  rcases List.mem_append.mp hc with hx | hx
  · rcases List.mem_append.mp hx with hy | hy
    · rw [hq, List.mem_singleton] at hy
      subst hy
      decide
    · exact escapeString_ascii s c hy
  · rw [hq, List.mem_singleton] at hx
    subst hx
    decide

/-- The serialization of any entry value is ASCII. -/
theorem jvalToString_ascii (v : JVal) : ∀ c ∈ (jvalToString v).data, c.toNat < 128 := by
  cases v with
  | jstr s => exact jstring_ascii s
  | jnum i => exact intToString_ascii i

/-- Joining ASCII strings with the `", "` separator stays ASCII. -/
theorem joinComma_ascii (l : List String) :
    (∀ s ∈ l, ∀ c ∈ s.data, c.toNat < 128) →
    ∀ c ∈ (joinComma l).data, c.toNat < 128 := by
  induction l with
  | nil => intro _ c hc; cases hc
  | cons s rest ih =>
    intro h c hc
    cases rest with
    | nil => exact h s (List.mem_singleton_self s) c hc
    | cons t rest2 =>
      have hc2 : c ∈ ((s ++ ", ") ++ joinComma (t :: rest2)).data := hc
      rw [String.data_append, String.data_append] at hc2
      rcases List.mem_append.mp hc2 with hx | hx
      · rcases List.mem_append.mp hx with hy | hy
        · exact h s (List.mem_cons_self s _) c hy
        · have hsep : (", " : String).data = [',', ' '] := rfl
          rw [hsep] at hy
          rcases List.mem_cons.mp hy with rfl | hy
          · decide
          rcases List.mem_cons.mp hy with rfl | hy
          · decide
          cases hy
      · exact ih (fun u hu c2 hc3 => h u (List.mem_cons_of_mem s hu) c2 hc3) c hx

/-- One serialized `"key": value` item is ASCII. -/
theorem jsonItem_ascii (kv : String × JVal) :
    ∀ c ∈ (jstring kv.1 ++ ": " ++ jvalToString kv.2).data, c.toNat < 128 := by
  intro c hc
  rw [String.data_append, String.data_append] at hc
  rcases List.mem_append.mp hc with hx | hx
  · rcases List.mem_append.mp hx with hy | hy
    · exact jstring_ascii kv.1 c hy
    · have hsep : (": " : String).data = [':', ' '] := rfl
      rw [hsep] at hy
      rcases List.mem_cons.mp hy with rfl | hy
      · decide
      rcases List.mem_cons.mp hy with rfl | hy
      · decide
      cases hy
  · exact jvalToString_ascii kv.2 c hx

/-- The whole `json.dumps` rendering of any entry is ASCII. -/
theorem json_dumps_ascii (entry : Entry) :
    ∀ c ∈ (json_dumps entry).data, c.toNat < 128 := by
  intro c hc
  unfold json_dumps at hc
  rw [String.data_append, String.data_append] at hc
  rcases List.mem_append.mp hc with hx | hx
  · rcases List.mem_append.mp hx with hy | hy
    · have hb : ("\x7b" : String).data = [Char.ofNat 123] := rfl
      rw [hb, List.mem_singleton] at hy
      subst hy
      decide
    · refine joinComma_ascii _ ?_ c hy
      intro s hs
      rcases List.mem_map.mp hs with ⟨kv, _, rfl⟩
      exact jsonItem_ascii kv
  · have hb : ("\x7d" : String).data = [Char.ofNat 125] := rfl
    rw [hb, List.mem_singleton] at hx
    subst hx
    decide

/-- Claim C10: every line the script writes to stdout contains only ASCII
characters; non-ASCII characters in an entry's text are emitted as escape
sequences by the default JSON serialization. -/
theorem c10_stdout_ascii (api : Provider) (argv : List String) (line : String)
    (h : line ∈ (main api argv).stdout) :
    ∀ c ∈ line.data, c.toNat < 128 := by
  unfold main at h
  split at h
  · cases h
  · rcases hgp : get_transcript api (argv.getD 1 "") with ⟨cs, r⟩
    rw [hgp] at h
    cases r with
    | ok ts =>
      have h2 : line ∈ ts.map json_dumps := h
      rcases List.mem_map.mp h2 with ⟨entry, _, rfl⟩
      exact json_dumps_ascii entry
    | error e => cases h

/-- Witness for C10: in a run whose transcript text contains a non-ASCII
character, the opening brace character of the printed line is in the line
and is ASCII. -/
theorem c10_stdout_ascii_witness :
    Char.ofNat 123 ∈ (json_dumps [("text", JVal.jstr "héllo"), ("start", JVal.jnum 0),
                                  ("duration", JVal.jnum 1)]).data ∧
    (Char.ofNat 123).toNat < 128 :=
  ⟨by decide,
   c10_stdout_ascii unicodeApi ["get_transcript.py", "abc"]
     (json_dumps [("text", JVal.jstr "héllo"), ("start", JVal.jnum 0),
                  ("duration", JVal.jnum 1)])
     (List.Mem.head _) (Char.ofNat 123) (by decide)⟩

end Speakflow
